import Mathlib

/-!
Shallow embedding of the mcp-selenium MCP server (src/index.js, the file given
as src/unnamed/part_010) for verification of its session-registry and
BiDi-diagnostics claims.

Modelling conventions:
* The JS Map objects (state.drivers, state.bidi) are modelled as association
  lists with JS-Map semantics: set replaces in place or appends, delete
  removes, get returns the first (unique) binding.
* External-world outcomes (driver launch success or failure, driver.quit
  success or failure, the Date.now() timestamp, availability of the BiDi
  modules, success of the BiDi attach) are explicit parameters of each
  operation, since the JS code receives them from the environment.
* JSON.stringify of a log list is modelled by the injective-by-construction
  renderer renderList below; the claims only depend on which entries appear
  and in which order.
* Tool handlers return a ToolResult (the MCP content payload with its isError
  flag) together with the successor server state; the try/catch wrapper of
  each handler is modelled by the error branches.
-/

namespace MCPSelenium

/-- Entry stored by the onConsoleEntry callback (index.js lines 72..79). -/
structure ConsoleEntry where
  level : String
  text : String
  timestamp : Nat
  type : String
  method : String
  args : List String
deriving DecidableEq, Repr

/-- Entry stored by the onJavascriptLog callback (index.js lines 80..87). -/
structure PageErrorEntry where
  level : String
  text : String
  timestamp : Nat
  type : String
  stackTrace : String
deriving DecidableEq, Repr

/-- Entry stored by the network callbacks (index.js lines 90..105): either a
completed response record or a fetch-error record. -/
inductive NetworkEntry where
  | response (url : String) (status : Nat) (method : String) (mimeType : String) (timestamp : Nat)
  | fetchErr (url : String) (method : String) (errorText : String) (timestamp : Nat)
deriving DecidableEq, Repr

/-- Raw console event as delivered by the BiDi backend; the callback projects
out the first six fields, extra backend fields (modelled by realm) are
dropped.  The level field is whatever string the backend supplies. -/
structure RawConsoleEvent where
  level : String
  text : String
  timestamp : Nat
  type : String
  method : String
  args : List String
  realm : String
deriving DecidableEq, Repr

/-- Raw javascript-log event as delivered by the BiDi backend. -/
structure RawJsLogEvent where
  level : String
  text : String
  timestamp : Nat
  type : String
  stackTrace : String
  realm : String
deriving DecidableEq, Repr

/-- Per-session BiDi diagnostics state (index.js newBidiState, lines 61..66). -/
structure BidiState where
  available : Bool
  consoleLogs : List ConsoleEntry
  pageErrors : List PageErrorEntry
  networkLogs : List NetworkEntry
deriving DecidableEq, Repr

/-- Fresh diagnostics state: unavailable, all three sequences empty. -/
def newBidiState : BidiState :=
  { available := false, consoleLogs := [], pageErrors := [], networkLogs := [] }

/-- The record the onConsoleEntry callback builds from a raw backend event
(index.js lines 74..77): a field-by-field copy of the six captured fields.
In particular the level string is stored verbatim, with no renaming. -/
def projectConsole (e : RawConsoleEvent) : ConsoleEntry :=
  { level := e.level, text := e.text, timestamp := e.timestamp,
    type := e.type, method := e.method, args := e.args }

/-- The onConsoleEntry callback: appends the projected record to consoleLogs
(index.js lines 72..79). -/
def onConsoleEntry (b : BidiState) (e : RawConsoleEvent) : BidiState :=
  { b with consoleLogs := b.consoleLogs ++ [projectConsole e] }

/-- The onJavascriptLog callback: appends the projected record to pageErrors
(index.js lines 80..87). -/
def onJavascriptLog (b : BidiState) (e : RawJsLogEvent) : BidiState :=
  { b with pageErrors := b.pageErrors ++
      [{ level := e.level, text := e.text, timestamp := e.timestamp,
         type := e.type, stackTrace := e.stackTrace }] }

/-- The network callbacks responseCompleted and fetchError: append the record
to networkLogs (index.js lines 90..105). -/
def onNetworkEvent (b : BidiState) (e : NetworkEntry) : BidiState :=
  { b with networkLogs := b.networkLogs ++ [e] }

/-- JS Map get: first binding for the key, none when absent. -/
def mapGet? {α : Type} (m : List (String × α)) (k : String) : Option α :=
  match m with
  | [] => none
  | (k2, v) :: rest => if k2 = k then some v else mapGet? rest k

/-- JS Map set: replace the binding in place when the key is present,
append a new binding otherwise. -/
def mapSet {α : Type} (m : List (String × α)) (k : String) (v : α) :
    List (String × α) :=
  match m with
  | [] => [(k, v)]
  | (k2, v2) :: rest => if k2 = k then (k, v) :: rest else (k2, v2) :: mapSet rest k v

/-- JS Map delete: remove the binding for the key. -/
def mapDelete {α : Type} (m : List (String × α)) (k : String) :
    List (String × α) :=
  match m with
  | [] => []
  | (k2, v2) :: rest => if k2 = k then mapDelete rest k else (k2, v2) :: mapDelete rest k

/-- The module-level server state (index.js lines 33..37): drivers map,
current-session pointer, bidi map.  Driver handles are opaque, modelled by
Nat tokens handed out by the external builder. -/
structure ServerState where
  drivers : List (String × Nat)
  currentSession : Option String
  bidi : List (String × BidiState)
deriving DecidableEq, Repr

/-- Initial state: both maps empty, no current session. -/
def initialState : ServerState :=
  { drivers := [], currentSession := none, bidi := [] }

/-- Message of the error thrown by getDriver (index.js line 43). -/
def noActiveMsg : String := "No active browser session"

/-- getDriver (index.js lines 40..46): looks the current session up in the
drivers map and throws when the pointer is null or dangling. -/
def getDriver (s : ServerState) : Except String Nat :=
  match s.currentSession with
  | none => Except.error noActiveMsg
  | some sid =>
    match mapGet? s.drivers sid with
    | none => Except.error noActiveMsg
    | some d => Except.ok d

/-- MCP tool response payload: the text content plus the isError flag. -/
structure ToolResult where
  text : String
  isError : Bool
deriving DecidableEq, Repr

/-- Success payload. -/
def okResult (t : String) : ToolResult := { text := t, isError := false }

/-- Failure payload. -/
def errResult (t : String) : ToolResult := { text := t, isError := true }

/-- The four supported browser kinds. -/
inductive Browser where
  | chrome
  | firefox
  | edge
  | safari
deriving DecidableEq, Repr

/-- Browser name as it appears in the generated session id. -/
def Browser.name : Browser → String
  | .chrome => "chrome"
  | .firefox => "firefox"
  | .edge => "edge"
  | .safari => "safari"

/-- Session id generation (index.js line 226): browser name, underscore,
Date.now().  The timestamp is an explicit parameter of the model. -/
def sessionIdFor (b : Browser) (now : Nat) : String :=
  b.name ++ "_" ++ toString now

/-- start_browser tool handler (index.js lines 154..256).  The launch argument
is the outcome of the external driver build (error message or driver handle);
now is Date.now() at the call; bidiModules tells whether the BiDi modules
loaded at startup; attachOk tells whether setupBidi ran to completion.  When
setupBidi fails, nothing is stored in the bidi map, because the store
(index.js line 108) is the last step of setupBidi. -/
def startBrowser (s : ServerState) (b : Browser) (launch : Except String Nat)
    (now : Nat) (bidiModules : Bool) (attachOk : Bool) : ToolResult × ServerState :=
  match launch with
  | Except.error msg => (errResult ("Error starting browser: " ++ msg), s)
  | Except.ok d =>
    let sessionId := sessionIdFor b now
    let s1 : ServerState :=
      { s with drivers := mapSet s.drivers sessionId d,
               currentSession := some sessionId }
    let s2 : ServerState :=
      if bidiModules && attachOk then
        { s1 with bidi := mapSet s1.bidi sessionId { newBidiState with available := true } }
      else s1
    let message :=
      if (mapGet? s2.bidi sessionId).map (fun b2 => b2.available) = some true then
        "Browser started with session_id: " ++ sessionId ++
          " (BiDi enabled: console logs, JS errors, and network activity are being captured)"
      else
        "Browser started with session_id: " ++ sessionId
    (okResult message, s2)

/-- navigate tool handler (index.js lines 259..279), representative of every
pass-through tool: resolve the driver, delegate, wrap the outcome.  The
navErr argument is the outcome of the delegated driver call. -/
def navigate (s : ServerState) (url : String) (navErr : Option String) :
    ToolResult × ServerState :=
  match s.currentSession with
  | none => (errResult ("Error navigating: " ++ noActiveMsg), s)
  | some sid =>
    match mapGet? s.drivers sid with
    | none => (errResult ("Error navigating: " ++ noActiveMsg), s)
    | some _ =>
      match navErr with
      | some msg => (errResult ("Error navigating: " ++ msg), s)
      | none => (okResult ("Navigated to " ++ url), s)

/-- close_session tool handler (index.js lines 574..596).  quitErr is the
outcome of driver.quit().  When quit throws, the catch block returns the
error payload and none of the three bookkeeping statements after the await
runs, so the state is unchanged. -/
def closeSession (s : ServerState) (quitErr : Option String) :
    ToolResult × ServerState :=
  match s.currentSession with
  | none => (errResult ("Error closing session: " ++ noActiveMsg), s)
  | some sid =>
    match mapGet? s.drivers sid with
    | none => (errResult ("Error closing session: " ++ noActiveMsg), s)
    | some _ =>
      match quitErr with
      | some msg => (errResult ("Error closing session: " ++ msg), s)
      | none =>
        (okResult ("Browser session " ++ sid ++ " closed"),
         { drivers := mapDelete s.drivers sid,
           currentSession := none,
           bidi := mapDelete s.bidi sid })

/-- Observable teardown actions of the close_session handler, in program
order, used to settle the ordering claim about detach versus driver release. -/
inductive TeardownEvent where
  | driverQuit
  | driversDelete
  | bidiDelete
deriving DecidableEq, Repr, BEq

/-- Trace of teardown actions performed by close_session in program order
(index.js lines 578..585): driver.quit() first, then the drivers-map delete,
then the bidi-map delete; a quit failure aborts after the quit attempt. -/
def closeSessionTrace (s : ServerState) (quitErr : Option String) :
    List TeardownEvent :=
  match s.currentSession with
  | none => []
  | some sid =>
    match mapGet? s.drivers sid with
    | none => []
    | some _ =>
      match quitErr with
      | some _ => [TeardownEvent.driverQuit]
      | none => [TeardownEvent.driverQuit, TeardownEvent.driversDelete,
                 TeardownEvent.bidiDelete]

/-- close_current_window tool handler (index.js lines 767..802).  closeErr
covers a failure of driver.close() or getAllWindowHandles(); handles is the
handle list after the close; switchErr covers a failure of the switch in the
remaining-windows branch; quitErr is the outcome of the quit in the
last-window branch, which is caught and only logged, so the cleanup runs
regardless. -/
def closeCurrentWindow (s : ServerState) (closeErr : Option String)
    (handles : List String) (switchErr _quitErr : Option String) :
    ToolResult × ServerState :=
  match s.currentSession with
  | none => (errResult ("Error closing window: " ++ noActiveMsg), s)
  | some sid =>
    match mapGet? s.drivers sid with
    | none => (errResult ("Error closing window: " ++ noActiveMsg), s)
    | some _ =>
      match closeErr with
      | some msg => (errResult ("Error closing window: " ++ msg), s)
      | none =>
        match handles with
        | h :: _ =>
          match switchErr with
          | some msg => (errResult ("Error closing window: " ++ msg), s)
          | none => (okResult ("Window closed. Switched to: " ++ h), s)
        | [] =>
          (okResult "Last window closed. Session ended.",
           { drivers := mapDelete s.drivers sid,
             currentSession := none,
             bidi := mapDelete s.bidi sid })

/-- Signal-triggered cleanup handler (index.js lines 1112..1124): quits every
driver (failures logged, not propagated), clears both maps and the pointer. -/
def cleanup (s : ServerState) : ServerState :=
  let _ := s.drivers
  { drivers := [], currentSession := none, bidi := [] }

/-- Renderer standing in for JSON.stringify(logs, null, 2): one line per
entry via the given entry renderer.  Only its injectivity on the entry list
matters to the claims. -/
def renderList {α : Type} (render : α → String) (xs : List α) : String :=
  "[" ++ String.intercalate ", " (xs.map render) ++ "]"

/-- Parameters a registerBidiTool instantiation closes over: the log-sequence
accessor and updater for its event class, the entry renderer, and the two
sentinel messages. -/
structure BidiToolSpec (α : Type) where
  getLogs : BidiState → List α
  setLogs : BidiState → List α → BidiState
  render : α → String
  emptyMessage : String
  unavailableMessage : String

/-- Generic handler produced by registerBidiTool (index.js lines 111..132):
resolve the driver, look the bidi state up, return the unavailable sentinel
when absent or unavailable, otherwise render the sequence (empty sentinel for
the empty sequence) and truncate it when clear is set. -/
def runBidiTool {α : Type} (spec : BidiToolSpec α) (s : ServerState)
    (clear : Bool) : ToolResult × ServerState :=
  match s.currentSession with
  | none => (errResult ("Error: " ++ noActiveMsg), s)
  | some sid =>
    match mapGet? s.drivers sid with
    | none => (errResult ("Error: " ++ noActiveMsg), s)
    | some _ =>
      match mapGet? s.bidi sid with
      | none => (okResult spec.unavailableMessage, s)
      | some b =>
        if b.available = false then (okResult spec.unavailableMessage, s)
        else
          let logs := spec.getLogs b
          let result := if logs.isEmpty then spec.emptyMessage
                        else renderList spec.render logs
          let s2 := if clear then
                      { s with bidi := mapSet s.bidi sid (spec.setLogs b []) }
                    else s
          (okResult result, s2)

/-- Renderer for a stored console entry. -/
def renderConsoleEntry (e : ConsoleEntry) : String :=
  "(level " ++ e.level ++ ", text " ++ e.text ++ ", timestamp " ++
    toString e.timestamp ++ ", type " ++ e.type ++ ", method " ++ e.method ++ ")"

/-- Renderer for a stored page-error entry. -/
def renderPageErrorEntry (e : PageErrorEntry) : String :=
  "(level " ++ e.level ++ ", text " ++ e.text ++ ", timestamp " ++
    toString e.timestamp ++ ", type " ++ e.type ++ ", stackTrace " ++ e.stackTrace ++ ")"

/-- Renderer for a stored network entry. -/
def renderNetworkEntry : NetworkEntry → String
  | NetworkEntry.response url status method mimeType timestamp =>
      "(response " ++ url ++ " " ++ toString status ++ " " ++ method ++ " " ++
        mimeType ++ " " ++ toString timestamp ++ ")"
  | NetworkEntry.fetchErr url method errorText timestamp =>
      "(error " ++ url ++ " " ++ method ++ " " ++ errorText ++ " " ++
        toString timestamp ++ ")"

/-- Instantiation for get_console_logs (index.js lines 1068..1074). -/
def consoleToolSpec : BidiToolSpec ConsoleEntry :=
  { getLogs := fun b => b.consoleLogs,
    setLogs := fun b l => { b with consoleLogs := l },
    render := renderConsoleEntry,
    emptyMessage := "No console logs captured",
    unavailableMessage :=
      "Console log capture is not available (BiDi not supported by this browser/driver)" }

/-- Instantiation for get_page_errors (index.js lines 1076..1082). -/
def pageErrorsToolSpec : BidiToolSpec PageErrorEntry :=
  { getLogs := fun b => b.pageErrors,
    setLogs := fun b l => { b with pageErrors := l },
    render := renderPageErrorEntry,
    emptyMessage := "No page errors captured",
    unavailableMessage :=
      "Page error capture is not available (BiDi not supported by this browser/driver)" }

/-- Instantiation for get_network_logs (index.js lines 1084..1090). -/
def networkToolSpec : BidiToolSpec NetworkEntry :=
  { getLogs := fun b => b.networkLogs,
    setLogs := fun b l => { b with networkLogs := l },
    render := renderNetworkEntry,
    emptyMessage := "No network activity captured",
    unavailableMessage :=
      "Network log capture is not available (BiDi not supported by this browser/driver)" }

/-- The get_console_logs tool. -/
def getConsoleLogs (s : ServerState) (clear : Bool) : ToolResult × ServerState :=
  runBidiTool consoleToolSpec s clear

/-- The get_page_errors tool. -/
def getPageErrors (s : ServerState) (clear : Bool) : ToolResult × ServerState :=
  runBidiTool pageErrorsToolSpec s clear

/-- The get_network_logs tool. -/
def getNetworkLogs (s : ServerState) (clear : Bool) : ToolResult × ServerState :=
  runBidiTool networkToolSpec s clear

/-- Background console callback firing against the session whose setupBidi
registered it: appends to that session's buffer when it is in the bidi map
(a buffer of a session whose setup never completed is unreachable from the
map and the append has no observable effect on server state). -/
def fireConsoleEvent (s : ServerState) (sid : String) (e : RawConsoleEvent) :
    ServerState :=
  match mapGet? s.bidi sid with
  | none => s
  | some b => { s with bidi := mapSet s.bidi sid (onConsoleEntry b e) }

/-- Background javascript-log callback, as fireConsoleEvent. -/
def fireJsLogEvent (s : ServerState) (sid : String) (e : RawJsLogEvent) :
    ServerState :=
  match mapGet? s.bidi sid with
  | none => s
  | some b => { s with bidi := mapSet s.bidi sid (onJavascriptLog b e) }

/-- Background network callback, as fireConsoleEvent. -/
def fireNetworkEvent (s : ServerState) (sid : String) (e : NetworkEntry) :
    ServerState :=
  match mapGet? s.bidi sid with
  | none => s
  | some b => { s with bidi := mapSet s.bidi sid (onNetworkEvent b e) }

/-- One operation of the server model: a tool call with its environment
outcomes, a background capture callback, or the signal cleanup. -/
inductive Op where
  | start (b : Browser) (launch : Except String Nat) (now : Nat)
      (bidiModules attachOk : Bool)
  | nav (url : String) (navErr : Option String)
  | close (quitErr : Option String)
  | closeWindow (closeErr : Option String) (handles : List String)
      (switchErr quitErr : Option String)
  | queryConsole (clear : Bool)
  | queryPageErrors (clear : Bool)
  | queryNetwork (clear : Bool)
  | consoleEvent (sid : String) (e : RawConsoleEvent)
  | jsLogEvent (sid : String) (e : RawJsLogEvent)
  | networkEvent (sid : String) (e : NetworkEntry)
  | shutdownCleanup
deriving Repr

/-- Execute one operation, returning the tool payload (background events and
cleanup have no payload; an empty success payload stands in). -/
def execOp (s : ServerState) (op : Op) : ToolResult × ServerState :=
  match op with
  | Op.start b launch now m a => startBrowser s b launch now m a
  | Op.nav url e => navigate s url e
  | Op.close q => closeSession s q
  | Op.closeWindow c h sw q => closeCurrentWindow s c h sw q
  | Op.queryConsole c => getConsoleLogs s c
  | Op.queryPageErrors c => getPageErrors s c
  | Op.queryNetwork c => getNetworkLogs s c
  | Op.consoleEvent sid e => (okResult "", fireConsoleEvent s sid e)
  | Op.jsLogEvent sid e => (okResult "", fireJsLogEvent s sid e)
  | Op.networkEvent sid e => (okResult "", fireNetworkEvent s sid e)
  | Op.shutdownCleanup => (okResult "", cleanup s)

/-- State successor of one operation. -/
def step (s : ServerState) (op : Op) : ServerState := (execOp s op).2

/-- Run a sequence of operations from a state. -/
def run (s : ServerState) (ops : List Op) : ServerState := ops.foldl step s

/-- Operations that resolve the current session through getDriver before
doing anything (the session-dependent tools of the model). -/
def sessionDependent : Op → Bool
  | Op.nav _ _ => true
  | Op.close _ => true
  | Op.closeWindow _ _ _ _ => true
  | Op.queryConsole _ => true
  | Op.queryPageErrors _ => true
  | Op.queryNetwork _ => true
  | _ => false

/-- True when the operation cannot create a session with the given id: every
operation except a start whose generated id is exactly that id. -/
def avoidsId (sid : String) : Op → Bool
  | Op.start b _ now _ _ => decide (sessionIdFor b now ≠ sid)
  | _ => true

/-- The registry invariant: the current-session pointer, when non-null,
refers to an entry present in the drivers map. -/
def currentInMap (s : ServerState) : Bool :=
  match s.currentSession with
  | none => true
  | some sid => (mapGet? s.drivers sid).isSome

/-- One successful start_browser call of a sequence: its browser kind, the
Date.now() value observed by the handler, the driver handle the builder
produced, and the BiDi module and attach outcomes. -/
structure StartCall where
  browser : Browser
  now : Nat
  driverHandle : Nat
  bidiModules : Bool
  attachOk : Bool

/-- The session id the call generates. -/
def StartCall.sid (c : StartCall) : String := sessionIdFor c.browser c.now

/-- The call as an operation with a successful launch. -/
def StartCall.op (c : StartCall) : Op :=
  Op.start c.browser (Except.ok c.driverHandle) c.now c.bidiModules c.attachOk

/-- Concrete state with one active chrome session whose BiDi attach
succeeded: used as the concrete input of several witnesses. -/
def oneSessionState : ServerState :=
  { drivers := [("chrome_1000", 1)],
    currentSession := some "chrome_1000",
    bidi := [("chrome_1000", { newBidiState with available := true })] }

/-- Sample stored console entry, level info. -/
def entryInfo : ConsoleEntry :=
  { level := "info", text := "a", timestamp := 1, type := "console",
    method := "log", args := [] }

/-- Sample stored console entry, level warn. -/
def entryWarn : ConsoleEntry :=
  { level := "warn", text := "b", timestamp := 2, type := "console",
    method := "warn", args := [] }

/-- Sample stored console entry, level error. -/
def entryError : ConsoleEntry :=
  { level := "error", text := "c", timestamp := 3, type := "console",
    method := "error", args := [] }

/-- Sample stored page-error entry number one. -/
def pageErr1 : PageErrorEntry :=
  { level := "error", text := "boom one", timestamp := 4, type := "javascript",
    stackTrace := "at f1" }

/-- Sample stored page-error entry number two. -/
def pageErr2 : PageErrorEntry :=
  { level := "error", text := "boom two", timestamp := 5, type := "javascript",
    stackTrace := "at f2" }

/-- Sample stored page-error entry number three. -/
def pageErr3 : PageErrorEntry :=
  { level := "error", text := "boom three", timestamp := 6, type := "javascript",
    stackTrace := "at f3" }

/-- Sample stored network entry number one. -/
def netEntry1 : NetworkEntry :=
  NetworkEntry.response "https://a.example" 200 "GET" "text/html" 7

/-- Sample stored network entry number two. -/
def netEntry2 : NetworkEntry :=
  NetworkEntry.fetchErr "https://b.example" "POST" "connection reset" 8

/-- Sample stored network entry number three. -/
def netEntry3 : NetworkEntry :=
  NetworkEntry.response "https://c.example" 404 "GET" "text/html" 9

/-- BiDi state with three sample entries in each of the three sequences. -/
def threeLogBidi : BidiState :=
  { available := true, consoleLogs := [entryInfo, entryWarn, entryError],
    pageErrors := [pageErr1, pageErr2, pageErr3],
    networkLogs := [netEntry1, netEntry2, netEntry3] }

/-- Server state with one session carrying the three sample entries. -/
def threeLogState : ServerState :=
  { drivers := [("chrome_1000", 1)],
    currentSession := some "chrome_1000",
    bidi := [("chrome_1000", threeLogBidi)] }

/-- Raw console event at level warn, exactly as a BiDi backend names it. -/
def warnEvent : RawConsoleEvent :=
  { level := "warn", text := "warned", timestamp := 5, type := "console",
    method := "warn", args := [], realm := "realm1" }

/-- Raw console event at level info. -/
def infoEvent : RawConsoleEvent :=
  { level := "info", text := "hello", timestamp := 1, type := "console",
    method := "log", args := [], realm := "realm1" }

/-- Raw console event at level error. -/
def errorEvent : RawConsoleEvent :=
  { level := "error", text := "bad", timestamp := 9, type := "console",
    method := "error", args := [], realm := "realm1" }

/-- Lookup after setting the same key yields the new value. -/
theorem mapGet?_set_self {α : Type} (m : List (String × α)) (k : String) (v : α) :
    mapGet? (mapSet m k v) k = some v := by
  induction m with
  | nil => simp [mapSet, mapGet?]
  | cons p rest ih =>
    obtain ⟨k2, v2⟩ := p
    by_cases h : k2 = k
    · simp [mapSet, mapGet?, h]
    · simp [mapSet, mapGet?, h, ih]

/-- Lookup after setting a different key is unchanged. -/
theorem mapGet?_set_ne {α : Type} (m : List (String × α)) {k k2 : String} (v : α)
    (h : k2 ≠ k) : mapGet? (mapSet m k v) k2 = mapGet? m k2 := by
  induction m with
  | nil => simp [mapSet, mapGet?, Ne.symm h]
  | cons p rest ih =>
    obtain ⟨k3, v3⟩ := p
    by_cases h3 : k3 = k
    · subst h3
      simp [mapSet, mapGet?, Ne.symm h]
    · by_cases h4 : k3 = k2
      · simp [mapSet, mapGet?, h3, h4, h]
      · simp [mapSet, mapGet?, h3, h4, ih]

/-- Lookup after deleting the same key yields none. -/
theorem mapGet?_delete_self {α : Type} (m : List (String × α)) (k : String) :
    mapGet? (mapDelete m k) k = none := by
  induction m with
  | nil => simp [mapDelete, mapGet?]
  | cons p rest ih =>
    obtain ⟨k2, v2⟩ := p
    by_cases h : k2 = k
    · simp [mapDelete, h, ih]
    · simp [mapDelete, mapGet?, h, ih]

/-- Lookup after deleting a different key is unchanged. -/
theorem mapGet?_delete_ne {α : Type} (m : List (String × α)) {k k2 : String}
    (h : k2 ≠ k) : mapGet? (mapDelete m k) k2 = mapGet? m k2 := by
  induction m with
  | nil => simp [mapDelete]
  | cons p rest ih =>
    obtain ⟨k3, v3⟩ := p
    by_cases h3 : k3 = k
    · subst h3
      simp [mapDelete, mapGet?, Ne.symm h, ih]
    · by_cases h4 : k3 = k2
      · simp [mapDelete, mapGet?, h3, h4, h]
      · simp [mapDelete, mapGet?, h3, h4, ih]

/-- Setting a key absent from the map appends a new binding at the end. -/
theorem mapSet_fresh {α : Type} (m : List (String × α)) {k : String} (v : α)
    (h : mapGet? m k = none) : mapSet m k v = m ++ [(k, v)] := by
  induction m with
  | nil => simp [mapSet]
  | cons p rest ih =>
    obtain ⟨k2, v2⟩ := p
    by_cases h2 : k2 = k
    · simp [mapGet?, h2] at h
    · simp [mapGet?, h2] at h
      simp [mapSet, h2, ih h]

/-- A key is absent exactly when it is not among the bound keys. -/
theorem mapGet?_eq_none_iff {α : Type} (m : List (String × α)) (k : String) :
    mapGet? m k = none ↔ k ∉ m.map Prod.fst := by
  induction m with
  | nil => simp [mapGet?]
  | cons p rest ih =>
    obtain ⟨k2, v2⟩ := p
    by_cases h2 : k2 = k
    · simp [mapGet?, h2]
    · simp only [mapGet?, if_neg h2, List.map_cons, List.mem_cons]
      rw [ih]
      constructor
      · intro hk hmem
        rcases hmem with hh | hh
        · exact h2 hh.symm
        · exact hk hh
      · intro hmem
        exact fun hh => hmem (Or.inr hh)

/-- Re-setting a key to the value it already has leaves the map unchanged. -/
theorem mapSet_self_eq {α : Type} (m : List (String × α)) {k : String} {v : α}
    (h : mapGet? m k = some v) : mapSet m k v = m := by
  induction m with
  | nil => simp [mapGet?] at h
  | cons p rest ih =>
    obtain ⟨k2, v2⟩ := p
    by_cases h2 : k2 = k
    · subst h2
      simp [mapGet?] at h
      simp [mapSet, h]
    · simp [mapGet?, h2] at h
      simp [mapSet, h2, ih h]

/-- Deleting any key preserves the absence of a key. -/
theorem mapDelete_preserves_none {α : Type} (m : List (String × α))
    {x : String} (k : String) (h : mapGet? m x = none) :
    mapGet? (mapDelete m k) x = none := by
  by_cases hk : x = k
  · subst hk
    exact mapGet?_delete_self m x
  · rw [mapGet?_delete_ne m hk]
    exact h

/-- Setting a key that is bound in the map preserves the absence of another
key. -/
theorem mapSet_bound_preserves_none {α : Type} (m : List (String × α))
    {x k : String} {b : α} (v : α) (hk : mapGet? m k = some b)
    (h : mapGet? m x = none) : mapGet? (mapSet m k v) x = none := by
  have hxk : x ≠ k := by
    intro he
    rw [he, hk] at h
    exact Option.noConfusion h
  rw [mapGet?_set_ne m v hxk]
  exact h

/-- The navigate handler never changes the server state. -/
theorem navigate_snd (s : ServerState) (url : String) (e : Option String) :
    (navigate s url e).2 = s := by
  rcases hs : s.currentSession with _ | sid
  · simp [navigate, hs]
  · rcases hg : mapGet? s.drivers sid with _ | d
    · simp [navigate, hs, hg]
    · rcases e with _ | msg <;> simp [navigate, hs, hg]

/-- The successor state of a BiDi query tool is either the input state or the
input state with the current session's buffer truncated in place. -/
theorem runBidiTool_snd_shape {α : Type} (spec : BidiToolSpec α)
    (s : ServerState) (clear : Bool) :
    (runBidiTool spec s clear).2 = s ∨
    ∃ sid b, s.currentSession = some sid ∧ mapGet? s.bidi sid = some b ∧
      (runBidiTool spec s clear).2 =
        { s with bidi := mapSet s.bidi sid (spec.setLogs b []) } := by
  rcases hs : s.currentSession with _ | sid
  · exact Or.inl (by simp [runBidiTool, hs])
  · rcases hg : mapGet? s.drivers sid with _ | d
    · exact Or.inl (by simp [runBidiTool, hs, hg])
    · rcases hb : mapGet? s.bidi sid with _ | b
      · exact Or.inl (by simp [runBidiTool, hs, hg, hb])
      · rcases hav : b.available with _ | _
        · exact Or.inl (by simp [runBidiTool, hs, hg, hb, hav])
        · rcases hc : clear with _ | _
          · exact Or.inl (by simp [runBidiTool, hs, hg, hb, hav])
          · exact Or.inr ⟨sid, b, rfl, hb, by simp [runBidiTool, hs, hg, hb, hav]⟩

/-- The successor state of a background console callback is either the input
state or the input state with an existing buffer extended in place. -/
theorem fireConsoleEvent_shape (s : ServerState) (sid : String)
    (e : RawConsoleEvent) :
    fireConsoleEvent s sid e = s ∨
    ∃ b, mapGet? s.bidi sid = some b ∧
      fireConsoleEvent s sid e =
        { s with bidi := mapSet s.bidi sid (onConsoleEntry b e) } := by
  rcases hb : mapGet? s.bidi sid with _ | b
  · exact Or.inl (by simp [fireConsoleEvent, hb])
  · exact Or.inr ⟨b, rfl, by simp [fireConsoleEvent, hb]⟩

/-- The successor state of a background javascript-log callback, as
fireConsoleEvent_shape. -/
theorem fireJsLogEvent_shape (s : ServerState) (sid : String)
    (e : RawJsLogEvent) :
    fireJsLogEvent s sid e = s ∨
    ∃ b, mapGet? s.bidi sid = some b ∧
      fireJsLogEvent s sid e =
        { s with bidi := mapSet s.bidi sid (onJavascriptLog b e) } := by
  rcases hb : mapGet? s.bidi sid with _ | b
  · exact Or.inl (by simp [fireJsLogEvent, hb])
  · exact Or.inr ⟨b, rfl, by simp [fireJsLogEvent, hb]⟩

/-- The successor state of a background network callback, as
fireConsoleEvent_shape. -/
theorem fireNetworkEvent_shape (s : ServerState) (sid : String)
    (e : NetworkEntry) :
    fireNetworkEvent s sid e = s ∨
    ∃ b, mapGet? s.bidi sid = some b ∧
      fireNetworkEvent s sid e =
        { s with bidi := mapSet s.bidi sid (onNetworkEvent b e) } := by
  rcases hb : mapGet? s.bidi sid with _ | b
  · exact Or.inl (by simp [fireNetworkEvent, hb])
  · exact Or.inr ⟨b, rfl, by simp [fireNetworkEvent, hb]⟩

/-- A BiDi query tool run while the current session has no stored diagnostics
state returns the unavailable sentinel and changes nothing. -/
theorem runBidiTool_unavailable_of_none {α : Type} (spec : BidiToolSpec α)
    (s : ServerState) (sid : String) (clear : Bool)
    (h1 : s.currentSession = some sid)
    (h2 : (mapGet? s.drivers sid).isSome = true)
    (h3 : mapGet? s.bidi sid = none) :
    runBidiTool spec s clear = (okResult spec.unavailableMessage, s) := by
  obtain ⟨d, hd⟩ := Option.isSome_iff_exists.mp h2
  simp [runBidiTool, h1, hd, h3]

/-- Expansion of a background console callback firing against a session whose
buffer is stored in the bidi map. -/
theorem fireConsoleEvent_of_get (s : ServerState) (sid : String)
    (b : BidiState) (e : RawConsoleEvent) (h : mapGet? s.bidi sid = some b) :
    fireConsoleEvent s sid e =
      { s with bidi := mapSet s.bidi sid (onConsoleEntry b e) } ∧
    mapGet? (fireConsoleEvent s sid e).bidi sid = some (onConsoleEntry b e) ∧
    (fireConsoleEvent s sid e).currentSession = s.currentSession ∧
    (fireConsoleEvent s sid e).drivers = s.drivers := by
  have hf : fireConsoleEvent s sid e =
      { s with bidi := mapSet s.bidi sid (onConsoleEntry b e) } := by
    simp [fireConsoleEvent, h]
  refine ⟨hf, ?_, ?_, ?_⟩
  · rw [hf]
    exact mapGet?_set_self _ _ _
  · rw [hf]
  · rw [hf]

/-- C1, counterexample: with one active session, a close_session call whose
driver.quit fails reports the error but leaves the drivers map, the bidi map
and the current-session pointer exactly as they were — the registry entry is
NOT removed and the pointer is NOT cleared, contrary to the claim. -/
theorem C1_counterexample :
    (closeSession oneSessionState (some "quit failed")).1.isError = true ∧
    (closeSession oneSessionState (some "quit failed")).2 = oneSessionState ∧
    mapGet? (closeSession oneSessionState (some "quit failed")).2.drivers
      "chrome_1000" = some 1 ∧
    (closeSession oneSessionState (some "quit failed")).2.currentSession =
      some "chrome_1000" := by
  decide

/-- C1, amended: when driver.quit fails during close_session, the failure is
reported as an error payload and the registry mapping, diagnostics state and
current-session pointer are left unchanged; the bookkeeping (registry entry,
bidi entry, current pointer) is removed only when quit succeeds. -/
theorem C1_theorem (s : ServerState) (sid m : String)
    (h1 : s.currentSession = some sid)
    (h2 : (mapGet? s.drivers sid).isSome = true) :
    closeSession s (some m) =
      (errResult ("Error closing session: " ++ m), s) ∧
    (closeSession s none).2.currentSession = none ∧
    mapGet? (closeSession s none).2.drivers sid = none ∧
    mapGet? (closeSession s none).2.bidi sid = none := by
  obtain ⟨d, hd⟩ := Option.isSome_iff_exists.mp h2
  refine ⟨by simp [closeSession, h1, hd], ?_, ?_, ?_⟩ <;>
    simp [closeSession, h1, hd, mapGet?_delete_self]

/-- C1, witness: the amended statement at the concrete one-session state. -/
theorem C1_witness :
    closeSession oneSessionState (some "boom") =
      (errResult ("Error closing session: " ++ "boom"), oneSessionState) ∧
    (closeSession oneSessionState none).2.currentSession = none ∧
    mapGet? (closeSession oneSessionState none).2.drivers "chrome_1000" = none ∧
    mapGet? (closeSession oneSessionState none).2.bidi "chrome_1000" = none :=
  C1_theorem oneSessionState "chrome_1000" "boom" rfl (by decide)

/-- C5, counterexample: at the concrete one-session state, the teardown trace
of a successful close_session is quit first, then the drivers-map delete, then
the bidi-map (diagnostics) delete — the diagnostics detach does NOT happen
before the driver release, contrary to the claim. -/
theorem C5_counterexample :
    closeSessionTrace oneSessionState none =
      [TeardownEvent.driverQuit, TeardownEvent.driversDelete,
       TeardownEvent.bidiDelete] ∧
    ¬ (closeSessionTrace oneSessionState none).indexOf TeardownEvent.bidiDelete <
        (closeSessionTrace oneSessionState none).indexOf TeardownEvent.driverQuit := by
  decide

/-- C5, amended: during close_session teardown the driver release
(driver.quit) happens strictly before the diagnostics state for the session
is removed; the removal order is quit, drivers-map delete, bidi-map delete. -/
theorem C5_theorem (s : ServerState) (sid : String)
    (h1 : s.currentSession = some sid)
    (h2 : (mapGet? s.drivers sid).isSome = true) :
    closeSessionTrace s none =
      [TeardownEvent.driverQuit, TeardownEvent.driversDelete,
       TeardownEvent.bidiDelete] ∧
    (closeSessionTrace s none).indexOf TeardownEvent.driverQuit <
      (closeSessionTrace s none).indexOf TeardownEvent.bidiDelete := by
  obtain ⟨d, hd⟩ := Option.isSome_iff_exists.mp h2
  have ht : closeSessionTrace s none =
      [TeardownEvent.driverQuit, TeardownEvent.driversDelete,
       TeardownEvent.bidiDelete] := by
    simp [closeSessionTrace, h1, hd]
  rw [ht]
  exact ⟨rfl, by decide⟩

/-- C5, witness: the amended statement at the concrete one-session state. -/
theorem C5_witness :
    closeSessionTrace oneSessionState none =
      [TeardownEvent.driverQuit, TeardownEvent.driversDelete,
       TeardownEvent.bidiDelete] ∧
    (closeSessionTrace oneSessionState none).indexOf TeardownEvent.driverQuit <
      (closeSessionTrace oneSessionState none).indexOf TeardownEvent.bidiDelete :=
  C5_theorem oneSessionState "chrome_1000" rfl (by decide)

/-- C7: every session-dependent operation invoked while the current-session
pointer is null returns a failure payload whose text ends with the
NoActiveSession marker text, leaves the state unchanged, and is an ordinary
returned value (the handler is a total function, so no crash is possible). -/
theorem C7_theorem (s : ServerState) (op : Op)
    (h1 : s.currentSession = none) (h2 : sessionDependent op = true) :
    (execOp s op).1.isError = true ∧ (execOp s op).2 = s ∧
    ∃ p, (execOp s op).1.text = p ++ noActiveMsg := by
  cases op with
  | start b launch now m a => simp [sessionDependent] at h2
  | nav url e =>
      refine ⟨?_, ?_, "Error navigating: ", ?_⟩ <;>
        simp [execOp, navigate, h1, errResult]
  | close q =>
      refine ⟨?_, ?_, "Error closing session: ", ?_⟩ <;>
        simp [execOp, closeSession, h1, errResult]
  | closeWindow c h sw q =>
      refine ⟨?_, ?_, "Error closing window: ", ?_⟩ <;>
        simp [execOp, closeCurrentWindow, h1, errResult]
  | queryConsole c =>
      refine ⟨?_, ?_, "Error: ", ?_⟩ <;>
        simp [execOp, getConsoleLogs, runBidiTool, h1, errResult]
  | queryPageErrors c =>
      refine ⟨?_, ?_, "Error: ", ?_⟩ <;>
        simp [execOp, getPageErrors, runBidiTool, h1, errResult]
  | queryNetwork c =>
      refine ⟨?_, ?_, "Error: ", ?_⟩ <;>
        simp [execOp, getNetworkLogs, runBidiTool, h1, errResult]
  | consoleEvent sid e => simp [sessionDependent] at h2
  | jsLogEvent sid e => simp [sessionDependent] at h2
  | networkEvent sid e => simp [sessionDependent] at h2
  | shutdownCleanup => simp [sessionDependent] at h2

/-- C7, witness: close_session at the initial state (no session yet). -/
theorem C7_witness :
    initialState.currentSession = none ∧
    sessionDependent (Op.close none) = true ∧
    ((execOp initialState (Op.close none)).1.isError = true ∧
     (execOp initialState (Op.close none)).2 = initialState ∧
     ∃ p, (execOp initialState (Op.close none)).1.text = p ++ noActiveMsg) :=
  ⟨rfl, rfl, C7_theorem initialState (Op.close none) rfl rfl⟩

/-- C9: when the external driver build fails, start_browser returns the
launch failure as an error payload and the whole server state — drivers map,
bidi map and current-session pointer — is exactly the state before the call:
no session is registered. -/
theorem C9_theorem (s : ServerState) (b : Browser) (msg : String) (now : Nat)
    (bidiModules attachOk : Bool) :
    startBrowser s b (Except.error msg) now bidiModules attachOk =
      (errResult ("Error starting browser: " ++ msg), s) ∧
    (startBrowser s b (Except.error msg) now bidiModules attachOk).1.isError = true ∧
    (startBrowser s b (Except.error msg) now bidiModules attachOk).2.drivers = s.drivers ∧
    (startBrowser s b (Except.error msg) now bidiModules attachOk).2.bidi = s.bidi ∧
    (startBrowser s b (Except.error msg) now bidiModules attachOk).2.currentSession =
      s.currentSession :=
  ⟨rfl, rfl, rfl, rfl, rfl⟩

/-- C10: close_current_window with no remaining window handles performs a
full session teardown regardless of the quit outcome — registry entry and
diagnostics state removed, current pointer cleared — and a subsequent
session-dependent operation fails with the NoActiveSession message. -/
theorem C10_theorem (s : ServerState) (sid : String) (sw q : Option String)
    (url : String) (h1 : s.currentSession = some sid)
    (h2 : (mapGet? s.drivers sid).isSome = true) :
    closeCurrentWindow s none [] sw q =
      (okResult "Last window closed. Session ended.",
       { drivers := mapDelete s.drivers sid, currentSession := none,
         bidi := mapDelete s.bidi sid }) ∧
    mapGet? (closeCurrentWindow s none [] sw q).2.drivers sid = none ∧
    mapGet? (closeCurrentWindow s none [] sw q).2.bidi sid = none ∧
    (closeCurrentWindow s none [] sw q).2.currentSession = none ∧
    navigate (closeCurrentWindow s none [] sw q).2 url none =
      (errResult ("Error navigating: " ++ noActiveMsg),
       (closeCurrentWindow s none [] sw q).2) := by
  obtain ⟨d, hd⟩ := Option.isSome_iff_exists.mp h2
  have hc : closeCurrentWindow s none [] sw q =
      (okResult "Last window closed. Session ended.",
       { drivers := mapDelete s.drivers sid, currentSession := none,
         bidi := mapDelete s.bidi sid }) := by
    simp [closeCurrentWindow, h1, hd]
  rw [hc]
  exact ⟨rfl, mapGet?_delete_self _ _, mapGet?_delete_self _ _, rfl,
    by simp [navigate]⟩

/-- C10, witness: the last-window teardown at the concrete one-session state,
with a failing quit, followed by a navigate that reports NoActiveSession. -/
theorem C10_witness :
    closeCurrentWindow oneSessionState none [] none (some "quit failed") =
      (okResult "Last window closed. Session ended.",
       { drivers := mapDelete oneSessionState.drivers "chrome_1000",
         currentSession := none,
         bidi := mapDelete oneSessionState.bidi "chrome_1000" }) ∧
    mapGet? (closeCurrentWindow oneSessionState none [] none
      (some "quit failed")).2.drivers "chrome_1000" = none ∧
    mapGet? (closeCurrentWindow oneSessionState none [] none
      (some "quit failed")).2.bidi "chrome_1000" = none ∧
    (closeCurrentWindow oneSessionState none [] none
      (some "quit failed")).2.currentSession = none ∧
    navigate (closeCurrentWindow oneSessionState none [] none
      (some "quit failed")).2 "https://example.com" none =
      (errResult ("Error navigating: " ++ noActiveMsg),
       (closeCurrentWindow oneSessionState none [] none
         (some "quit failed")).2) :=
  C10_theorem oneSessionState "chrome_1000" none (some "quit failed")
    "https://example.com" rfl (by decide)

/-- Generic clear-then-drain behavior of a registerBidiTool handler, for any
tool spec whose accessor and updater form a lens on one buffer sequence: a
clear-true query over a sequence holding a1, a2, a3 renders exactly those
entries in that order, truncates the sequence in place, leaves the registry
untouched, and an immediately following query (with either clear flag, no
new events) returns the empty sentinel and changes nothing. -/
theorem runBidiTool_clear_drain {α : Type} (spec : BidiToolSpec α)
    (s : ServerState) (sid : String) (bst : BidiState) (a1 a2 a3 : α)
    (c2 : Bool)
    (h1 : s.currentSession = some sid)
    (h2 : (mapGet? s.drivers sid).isSome = true)
    (h3 : mapGet? s.bidi sid = some bst)
    (h4 : bst.available = true)
    (h5 : spec.getLogs bst = [a1, a2, a3])
    (hsg : spec.getLogs (spec.setLogs bst []) = [])
    (hsa : (spec.setLogs bst []).available = true)
    (hsi : spec.setLogs (spec.setLogs bst []) [] = spec.setLogs bst []) :
    (runBidiTool spec s true).1 =
      okResult (renderList spec.render [a1, a2, a3]) ∧
    mapGet? (runBidiTool spec s true).2.bidi sid = some (spec.setLogs bst []) ∧
    (runBidiTool spec s true).2.currentSession = s.currentSession ∧
    (runBidiTool spec s true).2.drivers = s.drivers ∧
    runBidiTool spec (runBidiTool spec s true).2 c2 =
      (okResult spec.emptyMessage, (runBidiTool spec s true).2) := by
  obtain ⟨d, hd⟩ := Option.isSome_iff_exists.mp h2
  have hq : runBidiTool spec s true =
      (okResult (renderList spec.render [a1, a2, a3]),
       { s with bidi := mapSet s.bidi sid (spec.setLogs bst []) }) := by
    simp [runBidiTool, h1, hd, h3, h4, h5]
  have hg2 : mapGet? (runBidiTool spec s true).2.bidi sid =
      some (spec.setLogs bst []) := by
    rw [hq]
    exact mapGet?_set_self _ _ _
  have hkeep : ∀ t : ServerState, t.currentSession = some sid →
      mapGet? t.drivers sid = some d →
      mapGet? t.bidi sid = some (spec.setLogs bst []) →
      runBidiTool spec t c2 = (okResult spec.emptyMessage, t) := by
    intro t hcur hdrv hbid
    obtain ⟨td, tc, tb⟩ := t
    have hc : tc = some sid := hcur
    subst hc
    cases c2 with
    | false =>
        simp [runBidiTool, hdrv, hbid, hsa, hsg]
    | true =>
        have hset : mapSet tb sid (spec.setLogs (spec.setLogs bst []) []) = tb := by
          rw [hsi]
          exact mapSet_self_eq _ hbid
        simp [runBidiTool, hdrv, hbid, hsa, hsg, hset]
  have hcur : (runBidiTool spec s true).2.currentSession = some sid := by
    rw [hq]
    exact h1
  have hdrv2 : mapGet? (runBidiTool spec s true).2.drivers sid = some d := by
    rw [hq]
    exact hd
  exact ⟨by rw [hq], hg2, by rw [hq], by rw [hq],
    hkeep (runBidiTool spec s true).2 hcur hdrv2 hg2⟩

/-- C3: for each of the three event classes — console logs, page errors,
network logs — a clear-true query over a buffer whose sequence for that class
holds entries a, b, c returns exactly those entries in that order (the
rendered snapshot of the call-time sequence), truncates that sequence in
place, leaves the registry untouched, and an immediately following query on
that class with no new events returns that class's empty sentinel, which
differs from its unavailable sentinel — no entry is duplicated or lost. -/
theorem C3_theorem (s : ServerState) (sid : String) (bst : BidiState)
    (e1 e2 e3 : ConsoleEntry) (p1 p2 p3 : PageErrorEntry)
    (n1 n2 n3 : NetworkEntry) (c2 : Bool)
    (h1 : s.currentSession = some sid)
    (h2 : (mapGet? s.drivers sid).isSome = true)
    (h3 : mapGet? s.bidi sid = some bst)
    (h4 : bst.available = true)
    (h5 : bst.consoleLogs = [e1, e2, e3])
    (h6 : bst.pageErrors = [p1, p2, p3])
    (h7 : bst.networkLogs = [n1, n2, n3]) :
    ((getConsoleLogs s true).1 =
       okResult (renderList renderConsoleEntry [e1, e2, e3]) ∧
     mapGet? (getConsoleLogs s true).2.bidi sid =
       some { bst with consoleLogs := [] } ∧
     (getConsoleLogs s true).2.currentSession = s.currentSession ∧
     (getConsoleLogs s true).2.drivers = s.drivers ∧
     getConsoleLogs (getConsoleLogs s true).2 c2 =
       (okResult consoleToolSpec.emptyMessage, (getConsoleLogs s true).2) ∧
     consoleToolSpec.emptyMessage ≠ consoleToolSpec.unavailableMessage) ∧
    ((getPageErrors s true).1 =
       okResult (renderList renderPageErrorEntry [p1, p2, p3]) ∧
     mapGet? (getPageErrors s true).2.bidi sid =
       some { bst with pageErrors := [] } ∧
     (getPageErrors s true).2.currentSession = s.currentSession ∧
     (getPageErrors s true).2.drivers = s.drivers ∧
     getPageErrors (getPageErrors s true).2 c2 =
       (okResult pageErrorsToolSpec.emptyMessage, (getPageErrors s true).2) ∧
     pageErrorsToolSpec.emptyMessage ≠ pageErrorsToolSpec.unavailableMessage) ∧
    ((getNetworkLogs s true).1 =
       okResult (renderList renderNetworkEntry [n1, n2, n3]) ∧
     mapGet? (getNetworkLogs s true).2.bidi sid =
       some { bst with networkLogs := [] } ∧
     (getNetworkLogs s true).2.currentSession = s.currentSession ∧
     (getNetworkLogs s true).2.drivers = s.drivers ∧
     getNetworkLogs (getNetworkLogs s true).2 c2 =
       (okResult networkToolSpec.emptyMessage, (getNetworkLogs s true).2) ∧
     networkToolSpec.emptyMessage ≠ networkToolSpec.unavailableMessage) := by
  refine ⟨?_, ?_, ?_⟩
  · obtain ⟨ha, hb, hc, hd, he⟩ :=
      runBidiTool_clear_drain consoleToolSpec s sid bst e1 e2 e3 c2
        h1 h2 h3 h4 h5 rfl h4 rfl
    exact ⟨ha, hb, hc, hd, he, by decide⟩
  · obtain ⟨ha, hb, hc, hd, he⟩ :=
      runBidiTool_clear_drain pageErrorsToolSpec s sid bst p1 p2 p3 c2
        h1 h2 h3 h4 h6 rfl h4 rfl
    exact ⟨ha, hb, hc, hd, he, by decide⟩
  · obtain ⟨ha, hb, hc, hd, he⟩ :=
      runBidiTool_clear_drain networkToolSpec s sid bst n1 n2 n3 c2
        h1 h2 h3 h4 h7 rfl h4 rfl
    exact ⟨ha, hb, hc, hd, he, by decide⟩

/-- C3, witness: the clear-true query for each of the three event classes at
the concrete state holding three entries in every sequence. -/
theorem C3_witness :
    ((getConsoleLogs threeLogState true).1 =
       okResult (renderList renderConsoleEntry [entryInfo, entryWarn, entryError]) ∧
     mapGet? (getConsoleLogs threeLogState true).2.bidi "chrome_1000" =
       some { threeLogBidi with consoleLogs := [] } ∧
     (getConsoleLogs threeLogState true).2.currentSession =
       threeLogState.currentSession ∧
     (getConsoleLogs threeLogState true).2.drivers = threeLogState.drivers ∧
     getConsoleLogs (getConsoleLogs threeLogState true).2 false =
       (okResult consoleToolSpec.emptyMessage,
        (getConsoleLogs threeLogState true).2) ∧
     consoleToolSpec.emptyMessage ≠ consoleToolSpec.unavailableMessage) ∧
    ((getPageErrors threeLogState true).1 =
       okResult (renderList renderPageErrorEntry [pageErr1, pageErr2, pageErr3]) ∧
     mapGet? (getPageErrors threeLogState true).2.bidi "chrome_1000" =
       some { threeLogBidi with pageErrors := [] } ∧
     (getPageErrors threeLogState true).2.currentSession =
       threeLogState.currentSession ∧
     (getPageErrors threeLogState true).2.drivers = threeLogState.drivers ∧
     getPageErrors (getPageErrors threeLogState true).2 false =
       (okResult pageErrorsToolSpec.emptyMessage,
        (getPageErrors threeLogState true).2) ∧
     pageErrorsToolSpec.emptyMessage ≠ pageErrorsToolSpec.unavailableMessage) ∧
    ((getNetworkLogs threeLogState true).1 =
       okResult (renderList renderNetworkEntry [netEntry1, netEntry2, netEntry3]) ∧
     mapGet? (getNetworkLogs threeLogState true).2.bidi "chrome_1000" =
       some { threeLogBidi with networkLogs := [] } ∧
     (getNetworkLogs threeLogState true).2.currentSession =
       threeLogState.currentSession ∧
     (getNetworkLogs threeLogState true).2.drivers = threeLogState.drivers ∧
     getNetworkLogs (getNetworkLogs threeLogState true).2 false =
       (okResult networkToolSpec.emptyMessage,
        (getNetworkLogs threeLogState true).2) ∧
     networkToolSpec.emptyMessage ≠ networkToolSpec.unavailableMessage) :=
  C3_theorem threeLogState "chrome_1000" threeLogBidi entryInfo entryWarn
    entryError pageErr1 pageErr2 pageErr3 netEntry1 netEntry2 netEntry3 false
    rfl (by decide) (by decide) rfl rfl rfl rfl

/-- C6, counterexample: a console event whose backend level string is warn is
stored with level warn, verbatim — the stored level is not normalized into
the closed set error/warning/info/debug named by the claim, so the claimed
normalization does not exist in the code. -/
theorem C6_counterexample :
    ((onConsoleEntry newBidiState warnEvent).consoleLogs.map
        fun e => e.level) = ["warn"] ∧
    "warn" ∉ (["error", "warning", "info", "debug"] : List String) := by
  decide

/-- C6, amended: after three console events fire, the buffer holds exactly 3
entries in fire order, and each stored level is the backend-supplied level
string verbatim (no normalization is applied); a drain without clear returns
exactly those three entries in fire order. -/
theorem C6_theorem (s : ServerState) (sid : String) (bst : BidiState)
    (e1 e2 e3 : RawConsoleEvent)
    (h1 : s.currentSession = some sid)
    (h2 : (mapGet? s.drivers sid).isSome = true)
    (h3 : mapGet? s.bidi sid = some bst)
    (h4 : bst.available = true)
    (h5 : bst.consoleLogs = []) :
    mapGet? (fireConsoleEvent (fireConsoleEvent (fireConsoleEvent s sid e1)
        sid e2) sid e3).bidi sid =
      some { bst with consoleLogs :=
        [projectConsole e1, projectConsole e2, projectConsole e3] } ∧
    ([projectConsole e1, projectConsole e2, projectConsole e3].map
        fun e => e.level) = [e1.level, e2.level, e3.level] ∧
    (getConsoleLogs (fireConsoleEvent (fireConsoleEvent (fireConsoleEvent s
        sid e1) sid e2) sid e3) false).1 =
      okResult (renderList renderConsoleEntry
        [projectConsole e1, projectConsole e2, projectConsole e3]) := by
  obtain ⟨d, hd⟩ := Option.isSome_iff_exists.mp h2
  obtain ⟨hf1, hg1, hc1, hd1⟩ := fireConsoleEvent_of_get s sid bst e1 h3
  obtain ⟨hf2, hg2, hc2, hd2⟩ :=
    fireConsoleEvent_of_get (fireConsoleEvent s sid e1) sid
      (onConsoleEntry bst e1) e2 hg1
  obtain ⟨hf3, hg3, hc3, hd3⟩ :=
    fireConsoleEvent_of_get (fireConsoleEvent (fireConsoleEvent s sid e1)
      sid e2) sid (onConsoleEntry (onConsoleEntry bst e1) e2) e3 hg2
  have hbst3 : onConsoleEntry (onConsoleEntry (onConsoleEntry bst e1) e2) e3 =
      { bst with consoleLogs :=
        [projectConsole e1, projectConsole e2, projectConsole e3] } := by
    simp [onConsoleEntry, h5]
  have hget : mapGet? (fireConsoleEvent (fireConsoleEvent (fireConsoleEvent s
      sid e1) sid e2) sid e3).bidi sid =
      some { bst with consoleLogs :=
        [projectConsole e1, projectConsole e2, projectConsole e3] } := by
    rw [hg3, hbst3]
  have hcur : (fireConsoleEvent (fireConsoleEvent (fireConsoleEvent s sid e1)
      sid e2) sid e3).currentSession = some sid := by
    rw [hc3, hc2, hc1, h1]
  have hdrv : mapGet? (fireConsoleEvent (fireConsoleEvent (fireConsoleEvent s
      sid e1) sid e2) sid e3).drivers sid = some d := by
    rw [hd3, hd2, hd1, hd]
  have hdrain : ∀ t : ServerState, t.currentSession = some sid →
      mapGet? t.drivers sid = some d →
      mapGet? t.bidi sid = some { bst with consoleLogs :=
        [projectConsole e1, projectConsole e2, projectConsole e3] } →
      (getConsoleLogs t false).1 =
        okResult (renderList renderConsoleEntry
          [projectConsole e1, projectConsole e2, projectConsole e3]) := by
    intro t htcur htdrv htbid
    simp [getConsoleLogs, runBidiTool, consoleToolSpec, htcur, htdrv, htbid, h4]
  exact ⟨hget, by simp [projectConsole], hdrain _ hcur hdrv hget⟩

/-- Every single operation of the model preserves the registry invariant:
whenever the current-session pointer is non-null afterwards, it names a key
bound in the drivers map. -/
theorem step_preserves_currentInMap (s : ServerState) (op : Op)
    (h : currentInMap s = true) : currentInMap (step s op) = true := by
  cases op with
  | start b launch now m a =>
    cases launch with
    | error msg => simpa [step, execOp, startBrowser] using h
    | ok d =>
      by_cases hba : (m && a) = true <;>
        simp [step, execOp, startBrowser, currentInMap, hba, mapGet?_set_self]
  | nav url e => simpa [step, execOp, navigate_snd] using h
  | close q =>
    rcases hs : s.currentSession with _ | sid
    · simpa [step, execOp, closeSession, hs] using h
    · rcases hg : mapGet? s.drivers sid with _ | d2
      · simpa [step, execOp, closeSession, hs, hg] using h
      · rcases q with _ | msg
        · simp [step, execOp, closeSession, hs, hg, currentInMap]
        · simpa [step, execOp, closeSession, hs, hg] using h
  | closeWindow c hl sw q =>
    rcases hs : s.currentSession with _ | sid
    · simpa [step, execOp, closeCurrentWindow, hs] using h
    · rcases hg : mapGet? s.drivers sid with _ | d2
      · simpa [step, execOp, closeCurrentWindow, hs, hg] using h
      · rcases c with _ | cmsg
        · rcases hl with _ | ⟨h1, hrest⟩
          · simp [step, execOp, closeCurrentWindow, hs, hg, currentInMap]
          · rcases sw with _ | swmsg <;>
              simpa [step, execOp, closeCurrentWindow, hs, hg] using h
        · simpa [step, execOp, closeCurrentWindow, hs, hg] using h
  | queryConsole c =>
    rcases runBidiTool_snd_shape consoleToolSpec s c with hsh | ⟨sid, b2, hcs, hb, hsh⟩
    · have hst : step s (Op.queryConsole c) = s := hsh
      rw [hst]
      exact h
    · have hst : step s (Op.queryConsole c) =
          { s with bidi := mapSet s.bidi sid (consoleToolSpec.setLogs b2 []) } := hsh
      rw [hst]
      exact h
  | queryPageErrors c =>
    rcases runBidiTool_snd_shape pageErrorsToolSpec s c with hsh | ⟨sid, b2, hcs, hb, hsh⟩
    · have hst : step s (Op.queryPageErrors c) = s := hsh
      rw [hst]
      exact h
    · have hst : step s (Op.queryPageErrors c) =
          { s with bidi := mapSet s.bidi sid (pageErrorsToolSpec.setLogs b2 []) } := hsh
      rw [hst]
      exact h
  | queryNetwork c =>
    rcases runBidiTool_snd_shape networkToolSpec s c with hsh | ⟨sid, b2, hcs, hb, hsh⟩
    · have hst : step s (Op.queryNetwork c) = s := hsh
      rw [hst]
      exact h
    · have hst : step s (Op.queryNetwork c) =
          { s with bidi := mapSet s.bidi sid (networkToolSpec.setLogs b2 []) } := hsh
      rw [hst]
      exact h
  | consoleEvent sid e =>
    rcases fireConsoleEvent_shape s sid e with hsh | ⟨b2, hb, hsh⟩
    · have hst : step s (Op.consoleEvent sid e) = s := hsh
      rw [hst]
      exact h
    · have hst : step s (Op.consoleEvent sid e) =
          { s with bidi := mapSet s.bidi sid (onConsoleEntry b2 e) } := hsh
      rw [hst]
      exact h
  | jsLogEvent sid e =>
    rcases fireJsLogEvent_shape s sid e with hsh | ⟨b2, hb, hsh⟩
    · have hst : step s (Op.jsLogEvent sid e) = s := hsh
      rw [hst]
      exact h
    · have hst : step s (Op.jsLogEvent sid e) =
          { s with bidi := mapSet s.bidi sid (onJavascriptLog b2 e) } := hsh
      rw [hst]
      exact h
  | networkEvent sid e =>
    rcases fireNetworkEvent_shape s sid e with hsh | ⟨b2, hb, hsh⟩
    · have hst : step s (Op.networkEvent sid e) = s := hsh
      rw [hst]
      exact h
    · have hst : step s (Op.networkEvent sid e) =
          { s with bidi := mapSet s.bidi sid (onNetworkEvent b2 e) } := hsh
      rw [hst]
      exact h
  | shutdownCleanup => simp [step, execOp, cleanup, currentInMap]

/-- C8: in every state reachable from the initial state by any sequence of
operations (tool calls with arbitrary environment outcomes, background
capture callbacks, signal cleanup), a non-null current-session pointer
always refers to an entry present in the drivers map. -/
theorem C8_theorem (ops : List Op) :
    currentInMap (run initialState ops) = true := by
  suffices h : ∀ (l : List Op) (s : ServerState), currentInMap s = true →
      currentInMap (run s l) = true from h ops initialState rfl
  intro l
  induction l with
  | nil =>
    intro s hs
    simpa [run] using hs
  | cons op rest ih =>
    intro s hs
    have h1 := step_preserves_currentInMap s op hs
    simpa [run] using ih (step s op) h1

/-- Every operation that cannot create a session with the given id preserves
the absence of a diagnostics entry for that id: nothing but a colliding start
ever inserts into the bidi map, and updates only touch keys already bound. -/
theorem step_preserves_bidi_none (s : ServerState) (sid : String) (op : Op)
    (h1 : mapGet? s.bidi sid = none) (h2 : avoidsId sid op = true) :
    mapGet? (step s op).bidi sid = none := by
  cases op with
  | start b launch now m a =>
    have hne : sessionIdFor b now ≠ sid := by
      simpa [avoidsId] using h2
    cases launch with
    | error msg => simpa [step, execOp, startBrowser] using h1
    | ok d =>
      by_cases hba : (m && a) = true
      · have hset : mapGet? (mapSet s.bidi (sessionIdFor b now)
            { newBidiState with available := true }) sid = none := by
          rw [mapGet?_set_ne _ _ (Ne.symm hne)]
          exact h1
        simpa [step, execOp, startBrowser, hba] using hset
      · simpa [step, execOp, startBrowser, hba] using h1
  | nav url e => simpa [step, execOp, navigate_snd] using h1
  | close q =>
    rcases hs : s.currentSession with _ | sid2
    · simpa [step, execOp, closeSession, hs] using h1
    · rcases hg : mapGet? s.drivers sid2 with _ | d2
      · simpa [step, execOp, closeSession, hs, hg] using h1
      · rcases q with _ | msg
        · simpa [step, execOp, closeSession, hs, hg] using
            mapDelete_preserves_none s.bidi sid2 h1
        · simpa [step, execOp, closeSession, hs, hg] using h1
  | closeWindow c hl sw q =>
    rcases hs : s.currentSession with _ | sid2
    · simpa [step, execOp, closeCurrentWindow, hs] using h1
    · rcases hg : mapGet? s.drivers sid2 with _ | d2
      · simpa [step, execOp, closeCurrentWindow, hs, hg] using h1
      · rcases c with _ | cmsg
        · rcases hl with _ | ⟨hh, hrest⟩
          · simpa [step, execOp, closeCurrentWindow, hs, hg] using
              mapDelete_preserves_none s.bidi sid2 h1
          · rcases sw with _ | swmsg <;>
              simpa [step, execOp, closeCurrentWindow, hs, hg] using h1
        · simpa [step, execOp, closeCurrentWindow, hs, hg] using h1
  | queryConsole c =>
    rcases runBidiTool_snd_shape consoleToolSpec s c with hsh | ⟨sid2, b2, hcs, hb, hsh⟩
    · have hst : step s (Op.queryConsole c) = s := hsh
      rw [hst]
      exact h1
    · have hst : step s (Op.queryConsole c) =
          { s with bidi := mapSet s.bidi sid2 (consoleToolSpec.setLogs b2 []) } := hsh
      rw [hst]
      exact mapSet_bound_preserves_none s.bidi _ hb h1
  | queryPageErrors c =>
    rcases runBidiTool_snd_shape pageErrorsToolSpec s c with hsh | ⟨sid2, b2, hcs, hb, hsh⟩
    · have hst : step s (Op.queryPageErrors c) = s := hsh
      rw [hst]
      exact h1
    · have hst : step s (Op.queryPageErrors c) =
          { s with bidi := mapSet s.bidi sid2 (pageErrorsToolSpec.setLogs b2 []) } := hsh
      rw [hst]
      exact mapSet_bound_preserves_none s.bidi _ hb h1
  | queryNetwork c =>
    rcases runBidiTool_snd_shape networkToolSpec s c with hsh | ⟨sid2, b2, hcs, hb, hsh⟩
    · have hst : step s (Op.queryNetwork c) = s := hsh
      rw [hst]
      exact h1
    · have hst : step s (Op.queryNetwork c) =
          { s with bidi := mapSet s.bidi sid2 (networkToolSpec.setLogs b2 []) } := hsh
      rw [hst]
      exact mapSet_bound_preserves_none s.bidi _ hb h1
  | consoleEvent sid2 e =>
    rcases fireConsoleEvent_shape s sid2 e with hsh | ⟨b2, hb, hsh⟩
    · have hst : step s (Op.consoleEvent sid2 e) = s := hsh
      rw [hst]
      exact h1
    · have hst : step s (Op.consoleEvent sid2 e) =
          { s with bidi := mapSet s.bidi sid2 (onConsoleEntry b2 e) } := hsh
      rw [hst]
      exact mapSet_bound_preserves_none s.bidi _ hb h1
  | jsLogEvent sid2 e =>
    rcases fireJsLogEvent_shape s sid2 e with hsh | ⟨b2, hb, hsh⟩
    · have hst : step s (Op.jsLogEvent sid2 e) = s := hsh
      rw [hst]
      exact h1
    · have hst : step s (Op.jsLogEvent sid2 e) =
          { s with bidi := mapSet s.bidi sid2 (onJavascriptLog b2 e) } := hsh
      rw [hst]
      exact mapSet_bound_preserves_none s.bidi _ hb h1
  | networkEvent sid2 e =>
    rcases fireNetworkEvent_shape s sid2 e with hsh | ⟨b2, hb, hsh⟩
    · have hst : step s (Op.networkEvent sid2 e) = s := hsh
      rw [hst]
      exact h1
    · have hst : step s (Op.networkEvent sid2 e) =
          { s with bidi := mapSet s.bidi sid2 (onNetworkEvent b2 e) } := hsh
      rw [hst]
      exact mapSet_bound_preserves_none s.bidi _ hb h1
  | shutdownCleanup => simp [step, execOp, cleanup, mapGet?]

/-- Running any sequence of operations that never generates the given session
id preserves the absence of a diagnostics entry for that id. -/
theorem run_preserves_bidi_none (ops : List Op) (s : ServerState) (sid : String)
    (h1 : mapGet? s.bidi sid = none)
    (h2 : ∀ op ∈ ops, avoidsId sid op = true) :
    mapGet? (run s ops).bidi sid = none := by
  induction ops generalizing s with
  | nil => simpa [run] using h1
  | cons op rest ih =>
    have hstep := step_preserves_bidi_none s sid op h1
      (h2 op (List.mem_cons_self op rest))
    have hrest : ∀ op2 ∈ rest, avoidsId sid op2 = true :=
      fun op2 hm => h2 op2 (List.mem_cons_of_mem op hm)
    simpa [run] using ih (step s op) hstep hrest

/-- C4: for a session whose BiDi attach failed at creation (no diagnostics
entry is stored, because the store is the last step of setupBidi), every
later diagnostics query against that session — after any operations that do
not recreate its id — returns the unavailable sentinel of its tool, never a
real or empty entry list, and leaves the state unchanged; no operation ever
flips the availability of that session. -/
theorem C4_theorem (s0 : ServerState) (b : Browser) (d now : Nat) (mods : Bool)
    (ops : List Op) (clear : Bool)
    (h0 : mapGet? s0.bidi (sessionIdFor b now) = none)
    (h2 : ∀ op ∈ ops, avoidsId (sessionIdFor b now) op = true)
    (h3 : (run (startBrowser s0 b (Except.ok d) now mods false).2 ops).currentSession
            = some (sessionIdFor b now))
    (h4 : (mapGet? (run (startBrowser s0 b (Except.ok d) now mods false).2
            ops).drivers (sessionIdFor b now)).isSome = true) :
    getConsoleLogs (run (startBrowser s0 b (Except.ok d) now mods false).2 ops) clear
        = (okResult consoleToolSpec.unavailableMessage,
           run (startBrowser s0 b (Except.ok d) now mods false).2 ops) ∧
    getPageErrors (run (startBrowser s0 b (Except.ok d) now mods false).2 ops) clear
        = (okResult pageErrorsToolSpec.unavailableMessage,
           run (startBrowser s0 b (Except.ok d) now mods false).2 ops) ∧
    getNetworkLogs (run (startBrowser s0 b (Except.ok d) now mods false).2 ops) clear
        = (okResult networkToolSpec.unavailableMessage,
           run (startBrowser s0 b (Except.ok d) now mods false).2 ops) := by
  have hs1 : mapGet? (startBrowser s0 b (Except.ok d) now mods false).2.bidi
      (sessionIdFor b now) = none := by
    simpa [startBrowser] using h0
  have hrun := run_preserves_bidi_none ops _ _ hs1 h2
  refine ⟨?_, ?_, ?_⟩
  · simpa [getConsoleLogs] using
      runBidiTool_unavailable_of_none consoleToolSpec _ _ clear h3 h4 hrun
  · simpa [getPageErrors] using
      runBidiTool_unavailable_of_none pageErrorsToolSpec _ _ clear h3 h4 hrun
  · simpa [getNetworkLogs] using
      runBidiTool_unavailable_of_none networkToolSpec _ _ clear h3 h4 hrun

/-- C4, witness: a chrome session started with a failing attach, followed by
no further operations; each of the three queries returns its unavailable
sentinel. -/
theorem C4_witness :
    getConsoleLogs (run (startBrowser initialState Browser.chrome
        (Except.ok 1) 5 true false).2 []) false
      = (okResult consoleToolSpec.unavailableMessage,
         run (startBrowser initialState Browser.chrome (Except.ok 1) 5 true
           false).2 []) ∧
    getPageErrors (run (startBrowser initialState Browser.chrome
        (Except.ok 1) 5 true false).2 []) false
      = (okResult pageErrorsToolSpec.unavailableMessage,
         run (startBrowser initialState Browser.chrome (Except.ok 1) 5 true
           false).2 []) ∧
    getNetworkLogs (run (startBrowser initialState Browser.chrome
        (Except.ok 1) 5 true false).2 []) false
      = (okResult networkToolSpec.unavailableMessage,
         run (startBrowser initialState Browser.chrome (Except.ok 1) 5 true
           false).2 []) :=
  C4_theorem initialState Browser.chrome 1 5 true [] false (by decide)
    (by simp) (by decide) (by decide)

/-- Running a sequence of successful start calls whose generated ids are
pairwise distinct and fresh for the starting state appends exactly those ids
to the drivers map in call order, and leaves the current pointer at the most
recently generated id. -/
theorem runStarts_general (calls : List StartCall) (s : ServerState)
    (hfresh : ∀ c ∈ calls, mapGet? s.drivers c.sid = none)
    (hnodup : (calls.map StartCall.sid).Nodup) :
    (run s (calls.map StartCall.op)).drivers.map Prod.fst
        = s.drivers.map Prod.fst ++ calls.map StartCall.sid ∧
    ∀ x, (calls.map StartCall.sid).getLast? = some x →
      (run s (calls.map StartCall.op)).currentSession = some x := by
  induction calls generalizing s with
  | nil =>
    refine ⟨by simp [run], ?_⟩
    intro x hx
    simp at hx
  | cons c rest ih =>
    have hfc : mapGet? s.drivers (sessionIdFor c.browser c.now) = none :=
      hfresh c (List.mem_cons_self c rest)
    have hdrv : (step s c.op).drivers = s.drivers ++ [(c.sid, c.driverHandle)] := by
      by_cases hba : (c.bidiModules && c.attachOk) = true <;>
        simp [step, execOp, StartCall.op, startBrowser, hba, StartCall.sid,
          mapSet_fresh s.drivers c.driverHandle hfc]
    have hcur : (step s c.op).currentSession = some c.sid := by
      by_cases hba : (c.bidiModules && c.attachOk) = true <;>
        simp [step, execOp, StartCall.op, startBrowser, hba, StartCall.sid]
    have hfresh2 : ∀ c2 ∈ rest, mapGet? (step s c.op).drivers c2.sid = none := by
      intro c2 hm
      rw [mapGet?_eq_none_iff, hdrv]
      have hn1 : c2.sid ∉ s.drivers.map Prod.fst :=
        (mapGet?_eq_none_iff _ _).mp (hfresh c2 (List.mem_cons_of_mem c hm))
      have hn2 : c2.sid ≠ c.sid := by
        intro he
        have hmem : c.sid ∈ rest.map StartCall.sid :=
          he ▸ List.mem_map_of_mem StartCall.sid hm
        exact (List.nodup_cons.mp hnodup).1 hmem
      simp [List.map_append, List.mem_append, hn1, hn2]
    have hnodup2 : (rest.map StartCall.sid).Nodup := (List.nodup_cons.mp hnodup).2
    obtain ⟨ihk, ihc⟩ := ih (step s c.op) hfresh2 hnodup2
    have hrunstep : run s ((c :: rest).map StartCall.op)
        = run (step s c.op) (rest.map StartCall.op) := by
      simp [run]
    constructor
    · rw [hrunstep, ihk, hdrv]
      simp [List.map_append]
    · intro x hx
      rw [hrunstep]
      cases rest with
      | nil =>
        have hx2 : c.sid = x := by simpa using hx
        rw [← hx2]
        simpa [run] using hcur
      | cons r rs =>
        have hx2 : (StartCall.sid r :: List.map StartCall.sid rs).getLast?
            = some x := by
          simpa [List.getLast?_cons_cons] using hx
        exact ihc x hx2

/-- C2, counterexample: two sequential successful start_browser calls for the
same browser kind observing the same Date.now() millisecond generate the same
session id, so the second registration replaces the first entry in the map:
after N = 2 starts the registry holds 1 entry, not 2, and the id is reused. -/
theorem C2_counterexample :
    sessionIdFor Browser.chrome 1000 = sessionIdFor Browser.chrome 1000 ∧
    (run initialState [Op.start Browser.chrome (Except.ok 1) 1000 true true,
        Op.start Browser.chrome (Except.ok 2) 1000 true true]).drivers.length
      = 1 ∧
    ¬ (run initialState [Op.start Browser.chrome (Except.ok 1) 1000 true true,
        Op.start Browser.chrome (Except.ok 2) 1000 true true]).drivers.length
      = 2 := by
  decide

/-- C2, amended: provided the generated ids of the N sequential successful
start_browser calls are pairwise distinct (distinct browser-kind/timestamp
pairs; the code alone does not guarantee this, since the id is the browser
name plus Date.now() and a repeated millisecond collides), the registry holds
exactly N entries afterwards, their keys are the generated ids in call order,
and the current-session pointer names the most recently created session. -/
theorem C2_theorem (calls : List StartCall) (x : String)
    (hnodup : (calls.map StartCall.sid).Nodup)
    (hlast : (calls.map StartCall.sid).getLast? = some x) :
    (run initialState (calls.map StartCall.op)).drivers.length = calls.length ∧
    (run initialState (calls.map StartCall.op)).drivers.map Prod.fst
      = calls.map StartCall.sid ∧
    (run initialState (calls.map StartCall.op)).currentSession = some x := by
  have hfresh : ∀ c ∈ calls, mapGet? initialState.drivers c.sid = none := by
    intro c hm
    simp [initialState, mapGet?]
  obtain ⟨hk, hc⟩ := runStarts_general calls initialState hfresh hnodup
  have hk2 : (run initialState (calls.map StartCall.op)).drivers.map Prod.fst
      = calls.map StartCall.sid := by
    simpa [initialState] using hk
  refine ⟨?_, hk2, hc x hlast⟩
  have hlen := congrArg List.length hk2
  simpa using hlen

/-- C2, witness: two distinct-timestamp chrome starts from the initial state
yield two registry entries and the second session is current. -/
theorem C2_witness :
    (run initialState ([(⟨Browser.chrome, 1000, 1, true, true⟩ : StartCall),
        ⟨Browser.chrome, 1001, 2, true, true⟩].map StartCall.op)).drivers.length
      = 2 ∧
    (run initialState ([(⟨Browser.chrome, 1000, 1, true, true⟩ : StartCall),
        ⟨Browser.chrome, 1001, 2, true, true⟩].map StartCall.op)).drivers.map
        Prod.fst
      = [(⟨Browser.chrome, 1000, 1, true, true⟩ : StartCall),
        ⟨Browser.chrome, 1001, 2, true, true⟩].map StartCall.sid ∧
    (run initialState ([(⟨Browser.chrome, 1000, 1, true, true⟩ : StartCall),
        ⟨Browser.chrome, 1001, 2, true, true⟩].map
        StartCall.op)).currentSession = some "chrome_1001" :=
  C2_theorem [⟨Browser.chrome, 1000, 1, true, true⟩,
    ⟨Browser.chrome, 1001, 2, true, true⟩] "chrome_1001"
    (by decide) (by decide)

/-- C6, witness: the amended statement at the one-session state with three
concrete events at levels info, warn and error. -/
theorem C6_witness :
    mapGet? (fireConsoleEvent (fireConsoleEvent (fireConsoleEvent
        oneSessionState "chrome_1000" infoEvent) "chrome_1000" warnEvent)
        "chrome_1000" errorEvent).bidi "chrome_1000" =
      some { { newBidiState with available := true } with consoleLogs :=
        [projectConsole infoEvent, projectConsole warnEvent,
         projectConsole errorEvent] } ∧
    ([projectConsole infoEvent, projectConsole warnEvent,
      projectConsole errorEvent].map fun e => e.level) =
      [infoEvent.level, warnEvent.level, errorEvent.level] ∧
    (getConsoleLogs (fireConsoleEvent (fireConsoleEvent (fireConsoleEvent
        oneSessionState "chrome_1000" infoEvent) "chrome_1000" warnEvent)
        "chrome_1000" errorEvent) false).1 =
      okResult (renderList renderConsoleEntry
        [projectConsole infoEvent, projectConsole warnEvent,
         projectConsole errorEvent]) :=
  C6_theorem oneSessionState "chrome_1000" { newBidiState with available := true }
    infoEvent warnEvent errorEvent rfl (by decide) (by decide) rfl rfl

end MCPSelenium
